import Mathlib

/-!
Shallow embedding of the homebridge-ismartgate-light plugin
(src/src/index.ts, final version: class iSmartGateLight) and proofs about
its session/token lifecycle and light-command behaviour.

Modelling conventions:
* HTTP exchanges are oracle inputs: each axios call's outcome is a value of
  `Except Unit String` (`.error ()` = the promise rejected with a network
  error, `.ok body` = it resolved with the given response body text).
* JavaScript `undefined` for the token is modelled as `none : Option String`;
  a present string `s` is `some s`.  String coercion of `undefined` (as in
  URL concatenation) yields the text "undefined", as in JavaScript.
* `console.error(err)` and `this.log.info(...)` are modelled as emitted
  `LogEvent`s; a caught exception therefore shows up as a `consoleError`
  log event and never as a Lean-level failure: the functions are total,
  mirroring the fact that every code path of the source is wrapped in
  try/catch and no exception escapes to the caller.
* cheerio's `$('#webtoken').val()` (a third-party HTML query) is modelled
  by an oracle function `ext : String → Option String` applied to the
  configuration page body; `none` models the element being missing, in
  which case `.val()` returns `undefined`.
-/

/-- A log event: an informational line (`this.log.info`) or a
`console.error(err)` line from a catch block. -/
inductive LogEvent where
  | info (msg : String)
  | consoleError
  deriving Repr, DecidableEq

/-- An outbound HTTP request issued by the device-command path
(`axios.get(url, config)`); only the URL is observable to the claims. -/
inductive Request where
  | get (url : String)
  deriving Repr, DecidableEq

/-- The mutable/readonly fields of class `iSmartGateLight` that the claims
talk about (src/src/index.ts lines 230-250).  `webtoken = none` models the
JavaScript value `undefined`; the constructor initialises it to `some ""`
(`this.webtoken = ""`). -/
structure Accessory where
  name : String
  hostname : String
  username : String
  password : String
  debug : Bool
  webtoken : Option String
  lightOn : Bool
  deriving Repr, DecidableEq

/-- Constructor field initialisation (src/src/index.ts lines 243-250):
`webtoken := ""`, `lightOn := false`, `debug := config.debug || false`.
The constructor also fires `this.login()` asynchronously; that call is an
ordinary `login` step and is not folded into initialisation here. -/
def initAccessory (name hostname username password : String) (debug : Bool) : Accessory :=
  { name := name, hostname := hostname, username := username, password := password,
    debug := debug, webtoken := some "", lightOn := false }

/-- JavaScript string coercion of the token as used in URL concatenation
(`'...webtoken=' + this.webtoken`): `undefined` prints as "undefined". -/
def jsStr : Option String → String
  | some s => s
  | none => "undefined"

/-- Accumulate the value of a nonempty all-digit character list; `none` if a
non-digit appears. -/
def digitsValAux : List Char → Nat → Option Nat
  | [], acc => some acc
  | c :: cs, acc =>
    if c.isDigit then digitsValAux cs (acc * 10 + (c.toNat - 48)) else none

/-- Value of a nonempty all-digit character list; `none` (NaN) otherwise. -/
def digitsVal : List Char → Option Nat
  | [] => none
  | c :: cs => digitsValAux (c :: cs) 0

/-- Strip leading and trailing whitespace. -/
def trimWS (cs : List Char) : List Char :=
  ((cs.dropWhile Char.isWhitespace).reverse.dropWhile Char.isWhitespace).reverse

/-- JavaScript `ToNumber` on a string, restricted to the fragment the model
needs: after trimming whitespace, the empty string is 0 and an optionally
signed decimal integer literal has its integer value; every other string is
NaN (`none`).  (Float, hex and exponent literals are not modelled; no claim
or input considered here involves them.) -/
def jsToNumber (s : String) : Option Int :=
  match trimWS s.toList with
  | [] => some 0
  | '-' :: ds => (digitsVal ds).map (fun n => -(n : Int))
  | '+' :: ds => (digitsVal ds).map (fun n => (n : Int))
  | ds => (digitsVal ds).map (fun n => (n : Int))

/-- JavaScript loose equality `body == n` between a response-body string and
a number literal, as in `res.data == 1` / `res.data == 0`: the string is
converted with `ToNumber` and compared.  (When axios has already
JSON-parsed a bare digit body into a number, number-number comparison gives
the same outcome, so the raw body string is the uniform representation.) -/
def jsEqNum (s : String) (n : Int) : Bool :=
  jsToNumber s == some n

/-- The `login()` method (src/src/index.ts lines 280-305).  `post` is the
outcome of `axios.post('http://<hostname>/index.php', ...)`, `cfg` the
outcome of `axios.get('http://<hostname>/index.php?op=config#light-val')`,
and `ext` models cheerio's `$('#webtoken').val()` on the config page body
(`none` = element missing = `undefined`).  Any rejection is caught by the
surrounding try/catch and logged via `console.error`; the token assignment
is reached only when both requests resolve, and it stores whatever `.val()`
returned, including `undefined`. -/
def login (post cfg : Except Unit String) (ext : String → Option String)
    (st : Accessory) : Accessory × List LogEvent :=
  match post with
  | .error _ => (st, [.consoleError])
  | .ok _ =>
    match cfg with
    | .error _ => (st, [.info "Login Successful", .consoleError])
    | .ok body =>
      ({ st with webtoken := ext body },
        [.info "Login Successful", .info "Webtoken Identified"])

/-- The command URL exactly as the code concatenates it
(src/src/index.ts lines 314 and 339):
`'http://' + this.hostname + '/isg/light.php?op=activate&light=' + digit +
'&webtoken=' + this.webtoken`, with digit `0` for `turnLightOn` and `1`
for `turnLightOff` (`dir = true` means the on direction). -/
def lightUrlCode (host : String) (dir : Bool) (tok : Option String) : String :=
  "http://" ++ host ++ "/isg/light.php?op=activate&light=" ++
    (if dir then "0" else "1") ++ "&webtoken=" ++ jsStr tok

/-- Result of running a device-command path to completion: the final field
state, the command requests issued (in order), the log events emitted, the
number of `login()` calls triggered by "Restricted Access" responses, and
the number of command attempts (request/response rounds) performed. -/
structure RunResult where
  state : Accessory
  requests : List Request
  logs : List LogEvent
  logins : Nat
  attempts : Nat
  deriving Repr, DecidableEq

/-- The `turnLightOn` / `turnLightOff` methods (src/src/index.ts lines
307-330 and 332-355), merged over the direction flag `dir` (`true` = on:
URL digit "0", success check `res.data == 1`, success log 'Light Turned
On'; `false` = off: URL digit "1", success check `res.data == 0`, success
log 'Light Turned Off').  `resps` is the stream of device responses, one
consumed per attempt; on a "Restricted Access" body the method runs
`this.login().then(() => { ...; this.turnLightOn/Off(); })`, which the
model renders as a `login` step followed by the recursive call on the rest
of the stream.  An exhausted stream models a request whose response never
arrives: the run halts before another attempt is made.  Every branch is
inside try/catch, so a rejected request yields a `consoleError` log and a
normal return. -/
def runLight (dir : Bool) (post cfg : Except Unit String)
    (ext : String → Option String) :
    Accessory → List (Except Unit String) → RunResult
  | st, [] => { state := st, requests := [], logs := [], logins := 0, attempts := 0 }
  | st, r :: rest =>
    let pre : List LogEvent :=
      if st.debug then
        [.info (if dir then "Attempting to turn on Light." else "Attempting to turn off Light.")]
      else []
    let req : Request := .get (lightUrlCode st.hostname dir st.webtoken)
    match r with
    | .error _ =>
      { state := st, requests := [req], logs := pre ++ [.consoleError],
        logins := 0, attempts := 1 }
    | .ok body =>
      let dbg : List LogEvent := if st.debug then [.info body] else []
      if jsEqNum body (if dir then 1 else 0) then
        { state := st, requests := [req],
          logs := pre ++ dbg ++ [.info (if dir then "Light Turned On" else "Light Turned Off")],
          logins := 0, attempts := 1 }
      else if body = "Restricted Access" then
        let lg := login post cfg ext st
        let expired : List LogEvent :=
          if st.debug then [.info "Login Token Expired. Refreshing Token."] else []
        let tail := runLight dir post cfg ext lg.1 rest
        { state := tail.state, requests := req :: tail.requests,
          logs := pre ++ dbg ++ lg.2 ++ expired ++ tail.logs,
          logins := tail.logins + 1, attempts := tail.attempts + 1 }
      else
        { state := st, requests := [req],
          logs := pre ++ dbg ++ [.info "Error: Light did not respond"],
          logins := 0, attempts := 1 }

/-- `turnLightOn` is the on-direction instance of the command path. -/
def turnLightOn (post cfg : Except Unit String) (ext : String → Option String)
    (st : Accessory) (resps : List (Except Unit String)) : RunResult :=
  runLight true post cfg ext st resps

/-- `turnLightOff` is the off-direction instance of the command path. -/
def turnLightOff (post cfg : Except Unit String) (ext : String → Option String)
    (st : Accessory) (resps : List (Except Unit String)) : RunResult :=
  runLight false post cfg ext st resps

/-- The characteristic SET handler's synchronous state update
(src/src/index.ts line 261): `this.lightOn = value as boolean`, performed
before the asynchronous device command is dispatched. -/
def handleSet (value : Bool) (st : Accessory) : Accessory :=
  { st with lightOn := value }

/-- The full SET path (src/src/index.ts lines 260-270): store the commanded
value, then dispatch `turnLightOn` when true and `turnLightOff` when false.
The handler's own info log and callback are host glue and not observed by
any claim. -/
def setOn (value : Bool) (post cfg : Except Unit String)
    (ext : String → Option String) (st : Accessory)
    (resps : List (Except Unit String)) : RunResult :=
  runLight value post cfg ext (handleSet value st) resps

/-- The characteristic GET handler (src/src/index.ts lines 256-259):
returns `this.lightOn` synchronously with one info log; the empty request
list records that its body contains no HTTP call. -/
def getOn (st : Accessory) : Bool × List LogEvent × List Request :=
  (st.lightOn,
    [.info ("Current state of the light was returned: " ++ (if st.lightOn then "ON" else "OFF"))],
    [])

/-- The command URL as the specification writes it:
`http://<hostname>/isg/light.php?op=activate&light=<d>&webtoken=<token>`. -/
def specLightUrl (host d tok : String) : String :=
  "http://" ++ host ++ "/isg/light.php?op=activate&light=" ++ d ++ "&webtoken=" ++ tok

/-- A token value is empty when it is `undefined` or the empty string. -/
def tokenIsEmpty : Option String → Bool
  | none => true
  | some s => s == ""

/-- A concrete accessory state for concrete-input theorems: fresh from the
constructor, debug off, token still the initial empty string. -/
def st0 : Accessory := initAccessory "Light" "ismartgate.home" "user" "pass" false

/-- A cheerio oracle for a configuration page with no `#webtoken` element:
`.val()` returns `undefined`. -/
def ext0 : String → Option String := fun _ => none

theorem jsToNumber_RA : jsToNumber "Restricted Access" = none := by decide

theorem jsEqNum_RA (n : Int) : jsEqNum "Restricted Access" n = false := by
  show (jsToNumber "Restricted Access" == some n) = false
  rw [jsToNumber_RA]; rfl

theorem login_lightOn (post cfg : Except Unit String) (ext : String → Option String)
    (st : Accessory) : (login post cfg ext st).1.lightOn = st.lightOn := by
  cases post with
  | error e => rfl
  | ok p => cases cfg with
    | error e => rfl
    | ok b => rfl

theorem login_hostname (post cfg : Except Unit String) (ext : String → Option String)
    (st : Accessory) : (login post cfg ext st).1.hostname = st.hostname := by
  cases post with
  | error e => rfl
  | ok p => cases cfg with
    | error e => rfl
    | ok b => rfl

theorem runLight_lightOn (dir : Bool) (post cfg : Except Unit String)
    (ext : String → Option String) :
    ∀ (resps : List (Except Unit String)) (st : Accessory),
      (runLight dir post cfg ext st resps).state.lightOn = st.lightOn := by
  intro resps
  induction resps with
  | nil => intro st; rfl
  | cons r rest ih =>
    intro st
    cases r with
    | error e => rfl
    | ok body =>
      by_cases h2 : body = "Restricted Access"
      · subst h2
        simp [runLight, jsEqNum_RA, ih, login_lightOn]
      · by_cases h1 : jsEqNum body (if dir then 1 else 0) = true
        · simp [runLight, h1]
        · simp [runLight, h1, h2]

theorem handleSet_hostname (b : Bool) (st : Accessory) :
    (handleSet b st).hostname = st.hostname := rfl

theorem handleSet_webtoken (b : Bool) (st : Accessory) :
    (handleSet b st).webtoken = st.webtoken := rfl

theorem handleSet_debug (b : Bool) (st : Accessory) :
    (handleSet b st).debug = st.debug := rfl

theorem login_handleSet (post cfg : Except Unit String) (ext : String → Option String)
    (st : Accessory) (b : Bool) :
    login post cfg ext (handleSet b st)
      = (handleSet b (login post cfg ext st).1, (login post cfg ext st).2) := by
  cases post with
  | error e => rfl
  | ok p => cases cfg with
    | error e => rfl
    | ok c => rfl

theorem runLight_handleSet (dir : Bool) (post cfg : Except Unit String)
    (ext : String → Option String) (b : Bool) :
    ∀ (resps : List (Except Unit String)) (st : Accessory),
      runLight dir post cfg ext (handleSet b st) resps
        = { runLight dir post cfg ext st resps with
            state := handleSet b (runLight dir post cfg ext st resps).state } := by
  intro resps
  induction resps with
  | nil => intro st; rfl
  | cons r rest ih =>
    intro st
    cases r with
    | error e => rfl
    | ok body =>
      by_cases h2 : body = "Restricted Access"
      · subst h2
        simp [runLight, jsEqNum_RA, login_handleSet, ih, handleSet_hostname,
          handleSet_webtoken, handleSet_debug]
      · by_cases h1 : jsEqNum body (if dir then 1 else 0) = true
        · simp [runLight, h1, handleSet_hostname, handleSet_webtoken, handleSet_debug]
        · simp [runLight, h1, h2, handleSet_hostname, handleSet_webtoken, handleSet_debug]

theorem runLight_requests_form (dir : Bool) (post cfg : Except Unit String)
    (ext : String → Option String) :
    ∀ (resps : List (Except Unit String)) (st : Accessory) (q : Request),
      q ∈ (runLight dir post cfg ext st resps).requests →
        ∃ t : Option String, q = Request.get (lightUrlCode st.hostname dir t) := by
  intro resps
  induction resps with
  | nil => intro st q hq; simp [runLight] at hq
  | cons r rest ih =>
    intro st q hq
    cases r with
    | error e =>
      simp [runLight] at hq
      exact ⟨st.webtoken, hq⟩
    | ok body =>
      by_cases h2 : body = "Restricted Access"
      · subst h2
        simp [runLight, jsEqNum_RA] at hq
        rcases hq with hq | hq
        · exact ⟨st.webtoken, hq⟩
        · rcases ih _ _ hq with ⟨t, ht⟩
          refine ⟨t, ?_⟩
          rw [ht, login_hostname]
      · by_cases h1 : jsEqNum body (if dir then 1 else 0) = true
        · simp [runLight, h1] at hq
          exact ⟨st.webtoken, hq⟩
        · simp [runLight, h1, h2] at hq
          exact ⟨st.webtoken, hq⟩

theorem runLight_head (dir : Bool) (post cfg : Except Unit String)
    (ext : String → Option String) (st : Accessory) (r : Except Unit String)
    (rest : List (Except Unit String)) :
    (runLight dir post cfg ext st (r :: rest)).requests.head?
      = some (Request.get (lightUrlCode st.hostname dir st.webtoken)) := by
  cases r with
  | error e => rfl
  | ok body =>
    by_cases h2 : body = "Restricted Access"
    · subst h2
      simp [runLight, jsEqNum_RA]
    · by_cases h1 : jsEqNum body (if dir then 1 else 0) = true
      · simp [runLight, h1]
      · simp [runLight, h1, h2]

theorem lightUrlCode_ne (host : String) (dir : Bool) (t : Option String) :
    lightUrlCode host dir t ≠ lightUrlCode host (!dir) t := by
  intro h
  have hd := congrArg String.data h
  cases dir <;>
    simp only [lightUrlCode, Bool.not_true, Bool.not_false, if_true, if_false,
      String.data_append, List.append_assoc] at hd <;>
    · have h2 := List.append_cancel_left hd
      have h3 := List.append_cancel_left h2
      have h4 := List.append_cancel_left h3
      simp at h4

theorem jsEqNum_one_one : jsEqNum "1" 1 = true := by decide

theorem jsEqNum_zero_zero : jsEqNum "0" 0 = true := by decide

theorem jsEqNum_zero_one : jsEqNum "0" 1 = false := by decide

theorem jsEqNum_one_zero : jsEqNum "1" 0 = false := by decide

theorem not_zero_RA : ¬("0" : String) = "Restricted Access" := by decide

theorem not_one_RA : ¬("1" : String) = "Restricted Access" := by decide

/-- C1, counterexample: a setState(true) call whose device keeps answering
"Restricted Access" performs a second login and a second retry: with the
response stream RA, RA, "1" the run triggers 2 logins and 3 command
attempts, so the retried call's RA response does trigger a further
automatic retry, contrary to the claim's at-most-one-login-and-one-retry
bound. -/
theorem c1_persistent_restricted_cex :
    (setOn true (Except.ok "x") (Except.ok "page") ext0 st0
        [Except.ok "Restricted Access", Except.ok "Restricted Access", Except.ok "1"]).logins = 2 ∧
    (setOn true (Except.ok "x") (Except.ok "page") ext0 st0
        [Except.ok "Restricted Access", Except.ok "Restricted Access", Except.ok "1"]).attempts = 3 := by
  decide

/-- C1, amended: every "Restricted Access" response — including one received
by a retried call — triggers exactly one login and exactly one re-invocation
of the same setState direction; recursion is bounded only by the response
stream, not capped at one retry per user-initiated toggle. -/
theorem c1_each_restricted_one_more_retry (dir : Bool) (post cfg : Except Unit String)
    (ext : String → Option String) (st : Accessory) (rest : List (Except Unit String)) :
    (runLight dir post cfg ext st (Except.ok "Restricted Access" :: rest)).logins
      = (runLight dir post cfg ext (login post cfg ext st).1 rest).logins + 1 ∧
    (runLight dir post cfg ext st (Except.ok "Restricted Access" :: rest)).attempts
      = (runLight dir post cfg ext (login post cfg ext st).1 rest).attempts + 1 := by
  constructor <;> simp [runLight, jsEqNum_RA]

/-- C2, counterexample: turning the light on with response body "0" is NOT
treated as success — it falls into the generic failure branch and logs
'Error: Light did not respond'; symmetrically body "1" when turning off. -/
theorem c2_digit_mapping_cex :
    (turnLightOn (Except.ok "x") (Except.ok "page") ext0 st0 [Except.ok "0"]).logs
        = [LogEvent.info "Error: Light did not respond"] ∧
    (turnLightOff (Except.ok "x") (Except.ok "page") ext0 st0 [Except.ok "1"]).logs
        = [LogEvent.info "Error: Light did not respond"] := by
  decide

/-- C2, amended: when turning the light on the controller treats a response
body equal (under the code's loose numeric comparison) to "1" as success
and logs 'Light Turned On'; when turning off it treats "0" as success and
logs 'Light Turned Off' — the success digit is the opposite of the digit
sent in the request, not the same one. -/
theorem c2_success_digits (post cfg : Except Unit String) (ext : String → Option String)
    (st : Accessory) :
    LogEvent.info "Light Turned On" ∈ (turnLightOn post cfg ext st [Except.ok "1"]).logs ∧
    (turnLightOn post cfg ext st [Except.ok "1"]).logins = 0 ∧
    LogEvent.info "Light Turned Off" ∈ (turnLightOff post cfg ext st [Except.ok "0"]).logs ∧
    (turnLightOff post cfg ext st [Except.ok "0"]).logins = 0 := by
  refine ⟨?_, ?_, ?_, ?_⟩ <;>
    simp [turnLightOn, turnLightOff, runLight, jsEqNum_one_one, jsEqNum_zero_zero]

/-- C3: after setState(true) with device response "0" the commanded state is
true and no retry happens (no login, exactly one command attempt);
symmetrically for setState(false) with response "1". -/
theorem c3_commanded_state_no_retry (post cfg : Except Unit String)
    (ext : String → Option String) (st : Accessory) :
    ((setOn true post cfg ext st [Except.ok "0"]).state.lightOn = true ∧
      (setOn true post cfg ext st [Except.ok "0"]).logins = 0 ∧
      (setOn true post cfg ext st [Except.ok "0"]).attempts = 1) ∧
    ((setOn false post cfg ext st [Except.ok "1"]).state.lightOn = false ∧
      (setOn false post cfg ext st [Except.ok "1"]).logins = 0 ∧
      (setOn false post cfg ext st [Except.ok "1"]).attempts = 1) := by
  refine ⟨⟨?_, ?_, ?_⟩, ⟨?_, ?_, ?_⟩⟩ <;>
    simp [setOn, runLight, handleSet, jsEqNum_zero_one, jsEqNum_one_zero,
      not_zero_RA, not_one_RA]

/-- C4, counterexample: with the token input element missing from the
configuration page, login overwrites the token: it changes from the initial
empty string to the undefined value, so it is not left unchanged. -/
theorem c4_token_overwritten_cex :
    st0.webtoken = some "" ∧
    (login (Except.ok "x") (Except.ok "page") ext0 st0).1.webtoken = none ∧
    (login (Except.ok "x") (Except.ok "page") ext0 st0).1.webtoken ≠ st0.webtoken := by
  refine ⟨rfl, rfl, by decide⟩

/-- C4, amended: if the configuration HTML has no element with identifier
webtoken, login does not throw (it runs to completion, logging both info
lines) and afterwards the session token is the undefined value — an empty
value, but one that overwrites the prior empty string rather than leaving
it unchanged. -/
theorem c4_missing_token_element (post body : String) (ext : String → Option String)
    (st : Accessory) (h : ext body = none) :
    (login (Except.ok post) (Except.ok body) ext st).1.webtoken = none ∧
    tokenIsEmpty (login (Except.ok post) (Except.ok body) ext st).1.webtoken = true ∧
    (login (Except.ok post) (Except.ok body) ext st).2
      = [LogEvent.info "Login Successful", LogEvent.info "Webtoken Identified"] := by
  refine ⟨?_, ?_, rfl⟩ <;> simp [login, h, tokenIsEmpty]

/-- C4 witness: the amended statement at the concrete malformed page. -/
theorem c4_missing_token_element_witness :
    ext0 "page" = none ∧
    ((login (Except.ok "x") (Except.ok "page") ext0 st0).1.webtoken = none ∧
      tokenIsEmpty (login (Except.ok "x") (Except.ok "page") ext0 st0).1.webtoken = true ∧
      (login (Except.ok "x") (Except.ok "page") ext0 st0).2
        = [LogEvent.info "Login Successful", LogEvent.info "Webtoken Identified"]) :=
  ⟨rfl, c4_missing_token_element "x" "page" ext0 st0 rfl⟩

/-- C5: if the login POST rejects with a network error, the whole field
state (in particular the token) is exactly what it was before the call, and
login returns normally (the model is total because the source catches every
rejection); likewise when the follow-up configuration GET rejects. -/
theorem c5_login_failure_state_unchanged (cfg : Except Unit String)
    (ext : String → Option String) (st : Accessory) (p : String) :
    (login (Except.error ()) cfg ext st).1 = st ∧
    (login (Except.ok p) (Except.error ()) ext st).1 = st :=
  ⟨rfl, rfl⟩

/-- C6: getOn returns the last commanded boolean synchronously and issues no
request, whatever the device answered to the last setState; and setState
stores the commanded value into the state passed to the device command, so
the update precedes the asynchronous command's resolution (last conjunct is
definitional). -/
theorem c6_get_is_commanded_sync (v : Bool) (post cfg : Except Unit String)
    (ext : String → Option String) (st : Accessory) (resps : List (Except Unit String)) :
    (getOn (setOn v post cfg ext st resps).state).1 = v ∧
    (getOn (setOn v post cfg ext st resps).state).2.2 = [] ∧
    (handleSet v st).lightOn = v ∧
    setOn v post cfg ext st resps = runLight v post cfg ext (handleSet v st) resps := by
  refine ⟨?_, rfl, rfl, rfl⟩
  show (setOn v post cfg ext st resps).state.lightOn = v
  rw [setOn, runLight_lightOn]
  rfl

/-- C7: every command request issued by the device-command path is a GET to
http://<hostname>/isg/light.php?op=activate&light=<d>&webtoken=<token> with
d = "0" for the on direction and "1" for the off direction, and the first
request of any run carries the current session token. -/
theorem c7_command_url (dir : Bool) (post cfg : Except Unit String)
    (ext : String → Option String) (st : Accessory) (resps : List (Except Unit String))
    (r : Except Unit String) (rest : List (Except Unit String)) :
    (∀ q ∈ (runLight dir post cfg ext st resps).requests,
        ∃ t : Option String,
          q = Request.get (specLightUrl st.hostname (if dir then "0" else "1") (jsStr t))) ∧
    (runLight dir post cfg ext st (r :: rest)).requests.head?
      = some (Request.get (specLightUrl st.hostname (if dir then "0" else "1")
          (jsStr st.webtoken))) := by
  have hspec : ∀ (host : String) (t : Option String),
      lightUrlCode host dir t = specLightUrl host (if dir then "0" else "1") (jsStr t) :=
    fun host t => rfl
  constructor
  · intro q hq
    rcases runLight_requests_form dir post cfg ext resps st q hq with ⟨t, ht⟩
    exact ⟨t, by rw [ht, hspec]⟩
  · rw [runLight_head, hspec]

/-- C7 witness: the first request of a concrete run is the spec URL with
digit "0" and the current (empty) token. -/
theorem c7_command_url_witness :
    (runLight true (Except.ok "x") (Except.ok "page") ext0 st0 [Except.ok "1"]).requests.head?
      = some (Request.get (specLightUrl st0.hostname "0" (jsStr st0.webtoken))) :=
  (c7_command_url true (Except.ok "x") (Except.ok "page") ext0 st0 [Except.ok "1"]
    (Except.ok "1") []).2

/-- C8, counterexample: the empty response body is neither the digit "0" nor
"Restricted Access", yet turning the light off logs success for it (JS loose
equality: ToNumber("") is 0), not the generic failure. -/
theorem c8_loose_equality_cex :
    ("" : String) ≠ "0" ∧ ("" : String) ≠ "Restricted Access" ∧
    (turnLightOff (Except.ok "x") (Except.ok "page") ext0 st0 [Except.ok ""]).logs
      = [LogEvent.info "Light Turned Off"] ∧
    LogEvent.info "Error: Light did not respond"
      ∉ (turnLightOff (Except.ok "x") (Except.ok "page") ext0 st0 [Except.ok ""]).logs := by
  decide

/-- C8, amended: a network error is caught and logged and does not propagate
(the run returns normally with the state unchanged and no login); a response
body that is neither loosely equal (JS ==, numeric coercion) to the success
digit nor equal to "Restricted Access" is logged as the generic
'Error: Light did not respond' failure, with no retry, no state change and
no exception raised to the caller. -/
theorem c8_error_and_unexpected_body (dir : Bool) (post cfg : Except Unit String)
    (ext : String → Option String) (st : Accessory) (body : String)
    (h1 : jsEqNum body (if dir then 1 else 0) = false) (h2 : body ≠ "Restricted Access") :
    (runLight dir post cfg ext st [Except.error ()]).state = st ∧
    LogEvent.consoleError ∈ (runLight dir post cfg ext st [Except.error ()]).logs ∧
    (runLight dir post cfg ext st [Except.error ()]).logins = 0 ∧
    (runLight dir post cfg ext st [Except.ok body]).state = st ∧
    LogEvent.info "Error: Light did not respond"
      ∈ (runLight dir post cfg ext st [Except.ok body]).logs ∧
    (runLight dir post cfg ext st [Except.ok body]).logins = 0 ∧
    (runLight dir post cfg ext st [Except.ok body]).attempts = 1 := by
  refine ⟨rfl, ?_, rfl, ?_, ?_, ?_, ?_⟩ <;> simp [runLight, h1, h2]

/-- C8 witness: the amended statement at the concrete body "abc" in the on
direction. -/
theorem c8_error_and_unexpected_body_witness :
    (jsEqNum "abc" (if true then 1 else 0) = false) ∧ ("abc" : String) ≠ "Restricted Access" ∧
    ((runLight true (Except.ok "x") (Except.ok "page") ext0 st0 [Except.error ()]).state = st0 ∧
      LogEvent.consoleError
        ∈ (runLight true (Except.ok "x") (Except.ok "page") ext0 st0 [Except.error ()]).logs ∧
      (runLight true (Except.ok "x") (Except.ok "page") ext0 st0 [Except.error ()]).logins = 0 ∧
      (runLight true (Except.ok "x") (Except.ok "page") ext0 st0 [Except.ok "abc"]).state = st0 ∧
      LogEvent.info "Error: Light did not respond"
        ∈ (runLight true (Except.ok "x") (Except.ok "page") ext0 st0 [Except.ok "abc"]).logs ∧
      (runLight true (Except.ok "x") (Except.ok "page") ext0 st0 [Except.ok "abc"]).logins = 0 ∧
      (runLight true (Except.ok "x") (Except.ok "page") ext0 st0 [Except.ok "abc"]).attempts = 1) :=
  ⟨by decide, by decide,
    c8_error_and_unexpected_body true (Except.ok "x") (Except.ok "page") ext0 st0 "abc"
      (by decide) (by decide)⟩

/-- C9: in every branch of the device-command path (success, "Restricted
Access", other body, or network error) the commanded state lightOn is left
unchanged — turnLightOn and turnLightOff preserve it for every response
stream — while the host-facing set operation is exactly the function that
overwrites it. -/
theorem c9_commands_preserve_lightOn (dir : Bool) (post cfg : Except Unit String)
    (ext : String → Option String) (st : Accessory) (resps : List (Except Unit String))
    (v : Bool) :
    (runLight dir post cfg ext st resps).state.lightOn = st.lightOn ∧
    (turnLightOn post cfg ext st resps).state.lightOn = st.lightOn ∧
    (turnLightOff post cfg ext st resps).state.lightOn = st.lightOn ∧
    (handleSet v st).lightOn = v :=
  ⟨runLight_lightOn dir post cfg ext resps st, runLight_lightOn true post cfg ext resps st,
    runLight_lightOn false post cfg ext resps st, rfl⟩

/-- C10: the device-command path issues exactly the same requests whatever
the current commanded state is (changing lightOn before the run — as an
interleaved host set would — changes no request), and every request it
issues, including retries, targets the originating direction's digit and
differs from the opposite direction's request with the same token; hence a
retry issued after the commanded state flipped contradicts that state. -/
theorem c10_retry_ignores_commanded_state (dir b : Bool) (post cfg : Except Unit String)
    (ext : String → Option String) (st : Accessory) (resps : List (Except Unit String)) :
    (runLight dir post cfg ext (handleSet b st) resps).requests
      = (runLight dir post cfg ext st resps).requests ∧
    ∀ q ∈ (runLight dir post cfg ext st resps).requests,
      ∃ t : Option String,
        q = Request.get (lightUrlCode st.hostname dir t) ∧
        q ≠ Request.get (lightUrlCode st.hostname (!dir) t) := by
  constructor
  · rw [runLight_handleSet]
  · intro q hq
    rcases runLight_requests_form dir post cfg ext resps st q hq with ⟨t, ht⟩
    refine ⟨t, ht, ?_⟩
    rw [ht]
    intro hcon
    injection hcon with hurl
    exact lightUrlCode_ne st.hostname dir t hurl

/-- C10 witness: flipping the commanded state before a concrete run leaves
the issued requests unchanged. -/
theorem c10_retry_ignores_commanded_state_witness :
    (runLight true (Except.ok "x") (Except.ok "page") ext0 (handleSet true st0)
        [Except.ok "1"]).requests
      = (runLight true (Except.ok "x") (Except.ok "page") ext0 st0 [Except.ok "1"]).requests :=
  (c10_retry_ignores_commanded_state true true (Except.ok "x") (Except.ok "page") ext0 st0
    [Except.ok "1"]).1
